import Mathlib

/-!
Shallow embedding of the core signal-processing and export-planning logic of
the video-audio sync studio (source files `video_audio_sync_pro.py` and
`video_audio_sync_app_v2.py`).

PCM buffers are modelled as `List ℚ` (the source works on float arrays; exact
rationals model the arithmetic of the algorithms), sample rates as `ℕ`, and
the external transcoding tool as a pair of an error-stream line list and an
exit code.  Fallible operations return `Option`/`Except`.
-/

set_option autoImplicit false
set_option maxRecDepth 8000

namespace SyncStudio

/-- The epsilon `1e-8` used by the source both in peak normalization and in
the confidence denominator (`video_audio_sync_pro.py` lines 156-157, 174). -/
def eps : ℚ := 1 / 100000000

/-- `np.max(np.abs(xs))` for a buffer, with 0 for the empty buffer (the empty
case is fenced off separately, since `np.max` raises on an empty array). -/
def maxAbs (xs : List ℚ) : ℚ := xs.foldr (fun x m => max |x| m) 0

/-- Peak normalization `xs / (np.max(np.abs(xs)) + 1e-8)` applied by
`cross_correlation_sync` to each input buffer (lines 156-157). -/
def normalize (xs : List ℚ) : List ℚ := xs.map (fun x => x / (maxAbs xs + eps))

/-- Dot product of two sample windows (the summand of one correlation lag). -/
def dot (xs ys : List ℚ) : ℚ := (List.zipWith (fun a b => a * b) xs ys).sum

/-- `np.sum(xs**2)` as used in the confidence denominator (line 174). -/
def sumSq (xs : List ℚ) : ℚ := (xs.map (fun x => x * x)).sum

/-- `scipy.signal.correlate(search, template, mode='valid')` (line 170):
output index `k` is the dot product of `template` with the window of
`search` starting at `k`; output length is `search_len - template_len + 1`. -/
def correlate_valid (search template : List ℚ) : List ℚ :=
  (List.range (search.length + 1 - template.length)).map
    (fun k => dot ((search.drop k).take template.length) template)

/-- Helper for `argmaxIdx`: walks the tail with the running next index `i`,
best index `bi` and best value `bv`, replacing the best only on a strictly
greater value — the first-occurrence tie-breaking of `np.argmax`. -/
def argmaxGo : List ℚ → ℕ → ℕ → ℚ → ℕ
  | [], _, bi, _ => bi
  | x :: xs, i, bi, bv =>
    if bv < x then argmaxGo xs (i + 1) i x else argmaxGo xs (i + 1) bi bv

/-- `np.argmax` on a rational list (first index attaining the maximum);
0 on the empty list (unreachable in the estimator's use). -/
def argmaxIdx : List ℚ → ℕ
  | [] => 0
  | x :: xs => argmaxGo xs 1 0 x

/-- The analysis result produced by `cross_correlation_sync`
(`SyncResult` dataclass, lines 55-62).  The float field
`confidence = min(peak / (sqrt(sum(template²)·sum(search²)) + 1e-8), 1.0)`
involves a real square root, so the record keeps the exact rational
ingredients (`correlation_peak`, `template_energy`, `search_energy`) and the
confidence value is stated over `ℝ` in the theorems (`ConfidenceIs`).
`peak_index` and `template_from_reference` (the negation of the source's
local `reverse` flag) record the intermediates the specification talks
about. -/
structure SyncResult where
  offset_seconds : ℚ
  correlation_peak : ℚ
  sample_rate : ℕ
  method : String
  peak_index : ℕ
  template_energy : ℚ
  search_energy : ℚ
  template_from_reference : Bool
  deriving DecidableEq, Repr

/-- Template selection (lines 162/166): the first
`min(length, 30·sample_rate)` samples of the shorter (normalized) buffer. -/
def pick_template (shorter : List ℚ) (sr : ℕ) : List ℚ :=
  shorter.take (min shorter.length (30 * sr))

/-- Search-signal selection (lines 163/167): the longer (normalized) buffer
truncated to `min(length, template_len + max_offset_samples)`. -/
def pick_search (longer : List ℚ) (template_len max_offset_samples : ℕ) : List ℚ :=
  longer.take (min longer.length (template_len + max_offset_samples))

/-- Lines 170-187 of `cross_correlation_sync` after template/search
selection: valid-mode correlation, peak index and value, the sign of the
offset driven by `reverse`, and the assembled `SyncResult` (whose
`sample_rate` is always the video rate, line 185). -/
def correlatePick (template search_signal : List ℚ) (reverse : Bool)
    (vid_sr ext_sr : ℕ) : SyncResult :=
  { offset_seconds :=
      if reverse then (argmaxIdx (correlate_valid search_signal template) : ℚ) / (vid_sr : ℚ)
      else -((argmaxIdx (correlate_valid search_signal template) : ℚ) / (ext_sr : ℚ))
  , correlation_peak :=
      (correlate_valid search_signal template).getD
        (argmaxIdx (correlate_valid search_signal template)) 0
  , sample_rate := vid_sr
  , method := "cross_correlation"
  , peak_index := argmaxIdx (correlate_valid search_signal template)
  , template_energy := sumSq template
  , search_energy := sumSq search_signal
  , template_from_reference := !reverse }

/-- Shallow embedding of `AudioSyncWorker.cross_correlation_sync`
(`video_audio_sync_pro.py` lines 150-187; identical in
`video_audio_sync_app_v2.py` lines 142-192).  `none` models the exception
`np.max` raises at the normalization step when either buffer is empty; on
non-empty buffers the source always builds a `SyncResult`.  The shorter
buffer provides the template (ties go to the external buffer, the `else`
branch of line 161). -/
def cross_correlation_sync (vid_audio : List ℚ) (vid_sr : ℕ)
    (ext_audio : List ℚ) (ext_sr : ℕ) (max_offset : ℕ) : Option SyncResult :=
  if vid_audio = [] ∨ ext_audio = [] then none
  else if (normalize vid_audio).length < (normalize ext_audio).length then
    some (correlatePick (pick_template (normalize vid_audio) vid_sr)
      (pick_search (normalize ext_audio)
        (pick_template (normalize vid_audio) vid_sr).length (max_offset * vid_sr))
      false vid_sr ext_sr)
  else
    some (correlatePick (pick_template (normalize ext_audio) ext_sr)
      (pick_search (normalize vid_audio)
        (pick_template (normalize ext_audio) ext_sr).length (max_offset * vid_sr))
      true vid_sr ext_sr)

/-- The confidence field of a `SyncResult` as the source computes it
(lines 174 and 183): `peak / (sqrt(template_energy · search_energy) + 1e-8)`
clamped from above by `min(·, 1.0)`.  Stated relationally over `ℝ` because
the source computes it in floating point through a square root. -/
def ConfidenceIs (r : SyncResult) (c : ℝ) : Prop :=
  c = min ((r.correlation_peak : ℝ) /
      (Real.sqrt ((r.template_energy : ℝ) * (r.search_energy : ℝ)) + 1 / 100000000)) 1

/-- Export quality settings (`ExportSettings` dataclass, lines 65-75),
with the source's defaults. -/
structure ExportSettings where
  format : String := "mp4"
  video_codec : String := "libx264"
  audio_codec : String := "aac"
  resolution : String := "original"
  video_bitrate : String := "8M"
  audio_bitrate : String := "192k"
  preset : String := "medium"
  crf : ℤ := 23
  deriving DecidableEq, Repr

/-- `','.join(...)` on the video-filter list (line 268/287). -/
def join_comma : List String → String
  | [] => ""
  | [f] => f
  | f :: rest => f ++ "," ++ join_comma rest

/-- The audio mixing graph used in non-mute mode (line 284 of the pro file
and line 248 of the v2 file — the same string in both). -/
def mix_filter : String :=
  "[0:a]volume=0.3[original];[1:a]volume=1.0[new];[original][new]amix=inputs=2:duration=shortest"

/-- Shallow embedding of `VideoProcessWorker.build_ffmpeg_command`
(`video_audio_sync_pro.py` lines 255-301): the scale filter is added for a
non-"original" resolution; in mute (Replace) mode the `-c:v <codec>` pair is
emitted only when there is no video filter; in mix mode the filter graph and
`-c:v <codec>` are always emitted. -/
def build_ffmpeg_command (video_path temp_audio_path output_path : String)
    (s : ExportSettings) (mute_original : Bool) : List String :=
  (["ffmpeg", "-i", video_path, "-i", temp_audio_path] ++
    (if mute_original then
      (if (if s.resolution ≠ "original" then ["scale=" ++ s.resolution] else []) ≠ [] then
        ["-vf", join_comma (if s.resolution ≠ "original" then ["scale=" ++ s.resolution] else [])]
      else ["-c:v", s.video_codec]) ++
      ["-c:a", s.audio_codec, "-b:v", s.video_bitrate, "-b:a", s.audio_bitrate,
       "-crf", toString s.crf, "-preset", s.preset,
       "-map", "0:v:0", "-map", "1:a:0", "-shortest"]
    else
      (if (if s.resolution ≠ "original" then ["scale=" ++ s.resolution] else []) ≠ [] then
        ["-vf", join_comma (if s.resolution ≠ "original" then ["scale=" ++ s.resolution] else [])]
      else []) ++
      ["-filter_complex", mix_filter, "-c:v", s.video_codec, "-c:a", s.audio_codec,
       "-b:v", s.video_bitrate, "-b:a", s.audio_bitrate,
       "-crf", toString s.crf, "-preset", s.preset, "-map", "0:v:0"])) ++
  ["-y", output_path]

/-- The fixed Replace-mode command of the v2 file (`video_audio_sync_app_v2.py`
lines 229-241): video stream copied verbatim, no filters. -/
def v2_replace_command (video_path temp_audio_path output_path : String) : List String :=
  ["ffmpeg", "-i", video_path, "-i", temp_audio_path, "-c:v", "copy", "-c:a", "aac",
   "-b:a", "192k", "-map", "0:v:0", "-map", "1:a:0", "-shortest", "-y", output_path]

/-- The fixed mix-mode command of the v2 file (`video_audio_sync_app_v2.py`
lines 243-255): the audio filter graph together with `-c:v copy`. -/
def v2_mix_command (video_path temp_audio_path output_path : String) : List String :=
  ["ffmpeg", "-i", video_path, "-i", temp_audio_path, "-filter_complex", mix_filter,
   "-c:v", "copy", "-c:a", "aac", "-b:a", "192k", "-map", "0:v:0", "-y", output_path]

/-- Shallow embedding of `VideoProcessWorker.apply_offset_to_audio`
(`video_audio_sync_pro.py` lines 303-318, identical logic in the v2 file
lines 295-315).  Python's `int()` truncates toward zero, which on the
non-negative products `offset·sr` and `|offset|·sr` is the floor. -/
def apply_offset_to_audio (audio : List ℚ) (sr : ℕ) (offset : ℚ) : List ℚ :=
  if 0 < offset then
    List.replicate (⌊offset * (sr : ℚ)⌋).toNat 0 ++ audio
  else if offset < 0 then
    audio.drop (⌊|offset| * (sr : ℚ)⌋).toNat
  else audio

/-- Model of one run of the external transcoding tool: the lines it writes
to its error stream and its exit code. -/
structure ToolRun where
  stderr_lines : List String
  exit_code : Int
  deriving Repr

/-- The stderr-monitoring loop of `VideoProcessWorker.run` (pro lines
230-236, v2 lines 268-275): `readline` is called until it returns the empty
string at end of stream (and the process has exited), so the loop consumes
every line; the value returned here is the part of the stream still unread
when the loop breaks. -/
def monitor_drain : List String → List String
  | [] => []
  | _ :: rest => monitor_drain rest

/-- Outcome of one Export flow: the surfaced result or error message, and
whether the scratch audio file created at the start was deleted. -/
structure ExportOutcome where
  result : Except String String
  scratch_deleted : Bool

/-- Shallow embedding of the control flow of `VideoProcessWorker.run`
(pro lines 207-253, v2 lines 211-293).  `offset_failure = some msg` models
`apply_offset_to_audio` raising `Exception("Failed to apply offset: " + msg)`:
the exception jumps to the outer handler before the `os.unlink` line, so the
scratch file is not deleted.  Otherwise the monitor loop drains the error
stream, the scratch file is unlinked, and a non-zero exit code raises
`Exception("FFmpeg encoding failed: " + stderr)` where `stderr` is the
post-loop `process.stderr.read()` — the unread remainder of the stream. -/
def video_process_run (offset_failure : Option String) (tool : ToolRun)
    (output_path : String) : ExportOutcome :=
  match offset_failure with
  | some msg =>
    { result := Except.error ("Failed to apply offset: " ++ msg), scratch_deleted := false }
  | none =>
    if tool.exit_code ≠ 0 then
      { result := Except.error
          ("FFmpeg encoding failed: " ++ String.join (monitor_drain tool.stderr_lines))
      , scratch_deleted := true }
    else
      { result := Except.ok output_path, scratch_deleted := true }

/-- A sample amplitude of `1 - 1e-8`, chosen so that peak normalization by
`maxAbs + eps = 1` leaves concrete buffers unchanged. -/
def nearUnit : ℚ := 99999999 / 100000000

/-- The 500-sample template of the estimator scenario: a single spike
followed by 499 zeros. -/
def scenTemplate : List ℚ := nearUnit :: List.replicate 499 0

/-- Scenario reference buffer: 1000 zero samples followed by the 500-sample
template. -/
def scenVid : List ℚ := List.replicate 1000 0 ++ scenTemplate

/-- Scenario other buffer without trailing noise: exactly the template. -/
def scenExt : List ℚ := scenTemplate

/-- A 999-sample noise tail (alternating ±1/2). -/
def noiseTail : List ℚ :=
  (List.range 999).map (fun i => if i % 2 = 0 then (1 : ℚ) / 2 else -(1 / 2))

/-- Scenario other buffer with trailing noise: the 500-sample template
followed by the noise tail. -/
def scenExtNoisy : List ℚ := scenTemplate ++ noiseTail

/-- The `SyncResult` of running the estimator on the pair
`([nearUnit], [nearUnit])` at sample rate 1 (used by witnesses). -/
def spikeUnitResult : SyncResult :=
  { offset_seconds := 0
  , correlation_peak := 9999999800000001 / 10000000000000000
  , sample_rate := 1
  , method := "cross_correlation"
  , peak_index := 0
  , template_energy := 9999999800000001 / 10000000000000000
  , search_energy := 9999999800000001 / 10000000000000000
  , template_from_reference := false }

/-- The `SyncResult` of running the estimator on the pair
`([nearUnit], [-nearUnit, -nearUnit])` at sample rate 1: every correlation
lag is negative, so the peak value is negative. -/
def negPeakResult : SyncResult :=
  { offset_seconds := 0
  , correlation_peak := -(9999999800000001 / 10000000000000000)
  , sample_rate := 1
  , method := "cross_correlation"
  , peak_index := 0
  , template_energy := 9999999800000001 / 10000000000000000
  , search_energy := 9999999800000001 / 5000000000000000
  , template_from_reference := true }

/-! ### Helper lemmas -/

theorem normalize_length (xs : List ℚ) : (normalize xs).length = xs.length := by
  simp [normalize]

theorem monitor_drain_eq_nil : ∀ l : List String, monitor_drain l = []
  | [] => rfl
  | _ :: rest => monitor_drain_eq_nil rest

/-- Unfolding of the estimator in the `len(vid) < len(ext)` branch
(template taken from the video/reference buffer, `reverse = False`). -/
theorem sync_some_of_lt (v : List ℚ) (vsr : ℕ) (e : List ℚ) (esr mo : ℕ)
    (hv : v ≠ []) (he : e ≠ []) (h : v.length < e.length) :
    cross_correlation_sync v vsr e esr mo =
      some (correlatePick (pick_template (normalize v) vsr)
        (pick_search (normalize e) (pick_template (normalize v) vsr).length (mo * vsr))
        false vsr esr) := by
  unfold cross_correlation_sync
  rw [if_neg (not_or.mpr ⟨hv, he⟩), if_pos (by simpa [normalize_length] using h)]

/-- Unfolding of the estimator in the `len(vid) >= len(ext)` branch
(template taken from the external buffer, `reverse = True`). -/
theorem sync_some_of_not_lt (v : List ℚ) (vsr : ℕ) (e : List ℚ) (esr mo : ℕ)
    (hv : v ≠ []) (he : e ≠ []) (h : ¬ v.length < e.length) :
    cross_correlation_sync v vsr e esr mo =
      some (correlatePick (pick_template (normalize e) esr)
        (pick_search (normalize v) (pick_template (normalize e) esr).length (mo * vsr))
        true vsr esr) := by
  unfold cross_correlation_sync
  rw [if_neg (not_or.mpr ⟨hv, he⟩), if_neg (by simpa [normalize_length] using h)]

theorem sync_sources_ne (v : List ℚ) (vsr : ℕ) (e : List ℚ) (esr mo : ℕ) (r : SyncResult)
    (h : cross_correlation_sync v vsr e esr mo = some r) : v ≠ [] ∧ e ≠ [] := by
  by_cases hc : v = [] ∨ e = []
  · unfold cross_correlation_sync at h
    rw [if_pos hc] at h
    exact Option.noConfusion h
  · exact not_or.mp hc

theorem argmaxGo_lt_add (xs : List ℚ) :
    ∀ (i bi : ℕ) (bv : ℚ), bi < i → argmaxGo xs i bi bv < i + xs.length := by
  induction xs with
  | nil =>
    intro i bi bv h
    simpa [argmaxGo] using h
  | cons x t ih =>
    intro i bi bv h
    simp only [argmaxGo, List.length_cons]
    split
    · have := ih (i + 1) i x (Nat.lt_succ_self i)
      omega
    · have := ih (i + 1) bi bv (Nat.lt_succ_of_lt h)
      omega

theorem argmaxIdx_lt_length (xs : List ℚ) (h : xs ≠ []) : argmaxIdx xs < xs.length := by
  cases xs with
  | nil => exact absurd rfl h
  | cons x t =>
    have := argmaxGo_lt_add t 1 0 x Nat.one_pos
    simp only [argmaxIdx, List.length_cons]
    omega

theorem zipWith_mul_replicate_zero (xs : List ℚ) :
    ∀ n : ℕ, (List.zipWith (fun a b => a * b) xs (List.replicate n (0 : ℚ))).sum = 0 := by
  induction xs with
  | nil => intro n; simp
  | cons x t ih =>
    intro n
    cases n with
    | zero => simp
    | succ n => simp [List.replicate_succ, ih n]

theorem dot_spike (xs : List ℚ) (c : ℚ) (n : ℕ) :
    dot xs (c :: List.replicate n 0) = xs.headD 0 * c := by
  cases xs with
  | nil => simp [dot]
  | cons a t => simp [dot, zipWith_mul_replicate_zero]

theorem headD_take_succ (xs : List ℚ) (n : ℕ) : (xs.take (n + 1)).headD 0 = xs.headD 0 := by
  cases xs <;> rfl

theorem headD_drop (xs : List ℚ) : ∀ k : ℕ, (xs.drop k).headD 0 = xs.getD k 0 := by
  induction xs with
  | nil => intro k; cases k <;> rfl
  | cons x t ih =>
    intro k
    cases k with
    | zero => rfl
    | succ k => exact ih k

theorem correlate_spike (search : List ℚ) (c : ℚ) (n : ℕ) :
    correlate_valid search (c :: List.replicate n 0)
      = (List.range (search.length - n)).map (fun k => search.getD k 0 * c) := by
  unfold correlate_valid
  have hl : (c :: List.replicate n (0 : ℚ)).length = n + 1 := by simp
  rw [hl]
  have hr : search.length + 1 - (n + 1) = search.length - n := by omega
  rw [hr]
  refine List.map_congr_left ?_
  intro k _
  rw [dot_spike, headD_take_succ, headD_drop]

theorem getD_replicate_zero : ∀ n k : ℕ, (List.replicate n (0 : ℚ)).getD k 0 = 0 := by
  intro n
  induction n with
  | zero => intro k; simp
  | succ n ih =>
    intro k
    cases k with
    | zero => rfl
    | succ k => exact ih k

theorem foldr_maxabs_replicate_zero (n : ℕ) (m : ℚ) (hm : 0 ≤ m) :
    List.foldr (fun x a => max |x| a) m (List.replicate n 0) = m := by
  induction n with
  | zero => rfl
  | succ n ih => simp [List.replicate_succ, ih, max_eq_right hm]

theorem maxAbs_scenTemplate : maxAbs scenTemplate = nearUnit := by
  unfold maxAbs scenTemplate
  rw [List.foldr_cons, foldr_maxabs_replicate_zero 499 0 le_rfl,
    abs_of_nonneg (by norm_num [nearUnit]), max_eq_left (by norm_num [nearUnit])]

theorem maxAbs_scenVid : maxAbs scenVid = nearUnit := by
  unfold maxAbs scenVid
  rw [List.foldr_append,
    show List.foldr (fun x a => max |x| a) 0 scenTemplate = nearUnit from maxAbs_scenTemplate,
    foldr_maxabs_replicate_zero 1000 nearUnit (by norm_num [nearUnit])]

theorem normalize_of_maxAbs_nearUnit (xs : List ℚ) (h : maxAbs xs = nearUnit) :
    normalize xs = xs := by
  have h2 : maxAbs xs + eps = 1 := by rw [h]; norm_num [nearUnit, eps]
  simp [normalize, h2]

theorem scenTemplate_length : scenTemplate.length = 500 := by
  simp only [scenTemplate, List.length_cons, List.length_replicate]

theorem scenVid_length : scenVid.length = 1500 := by
  simp only [scenVid, List.length_append, List.length_replicate, scenTemplate_length]

theorem scenExtNoisy_length : scenExtNoisy.length = 1499 := by
  simp only [scenExtNoisy, noiseTail, List.length_append, List.length_map,
    List.length_range, scenTemplate_length]

theorem scenTemplate_ne_nil : scenTemplate ≠ [] := by
  unfold scenTemplate
  simp

theorem scenVid_ne_nil : scenVid ≠ [] := by
  unfold scenVid scenTemplate
  simp

theorem scenExtNoisy_ne_nil : scenExtNoisy ≠ [] := by
  unfold scenExtNoisy scenTemplate
  simp

theorem pick_template_scenExt : pick_template (normalize scenExt) 50 = scenTemplate := by
  rw [show scenExt = scenTemplate from rfl,
    normalize_of_maxAbs_nearUnit _ maxAbs_scenTemplate]
  unfold pick_template
  rw [scenTemplate_length, show min 500 (30 * 50) = 500 by omega, ← scenTemplate_length,
    List.take_length]

theorem pick_search_scenVid : pick_search (normalize scenVid) 500 (60 * 50) = scenVid := by
  rw [normalize_of_maxAbs_nearUnit _ maxAbs_scenVid]
  unfold pick_search
  rw [scenVid_length, show min 1500 (500 + 60 * 50) = 1500 by omega, ← scenVid_length,
    List.take_length]

theorem map_range_zero (f : ℕ → ℚ) (n : ℕ) (h : ∀ k, k < n → f k = 0) :
    (List.range n).map f = List.replicate n 0 := by
  induction n with
  | zero => rfl
  | succ n ih =>
    rw [List.range_succ, List.map_append, ih (fun k hk => h k (Nat.lt_succ_of_lt hk)),
      List.replicate_succ' n 0]
    simp [h n (Nat.lt_succ_self n)]

theorem scenVid_getD_lt (k : ℕ) (hk : k < 1000) : scenVid.getD k 0 = 0 := by
  unfold scenVid
  rw [List.getD_append _ _ _ _ (by rw [List.length_replicate]; exact hk)]
  exact getD_replicate_zero 1000 k

theorem scenVid_getD_1000 : scenVid.getD 1000 0 = nearUnit := by
  unfold scenVid
  rw [List.getD_append_right _ _ _ _ (by rw [List.length_replicate])]
  simp [scenTemplate]

theorem correlate_scen :
    correlate_valid scenVid scenTemplate = List.replicate 1000 0 ++ [nearUnit * nearUnit] := by
  rw [show scenTemplate = nearUnit :: List.replicate 499 0 from rfl,
    correlate_spike scenVid nearUnit 499, scenVid_length,
    show (1500 : ℕ) - 499 = 1000 + 1 from rfl, List.range_succ, List.map_append]
  rw [map_range_zero _ 1000 (fun k hk => by rw [scenVid_getD_lt k hk, zero_mul])]
  simp only [List.map_cons, List.map_nil, scenVid_getD_1000]

theorem argmaxGo_replicate_spike (p : ℚ) (hp : 0 < p) :
    ∀ n i bi : ℕ, argmaxGo (List.replicate n 0 ++ [p]) i bi 0 = i + n := by
  intro n
  induction n with
  | zero =>
    intro i bi
    simp [argmaxGo, hp]
  | succ n ih =>
    intro i bi
    rw [List.replicate_succ, List.cons_append]
    simp only [argmaxGo]
    rw [if_neg (lt_irrefl 0), ih (i + 1) bi]
    omega

theorem argmaxIdx_replicate_spike (p : ℚ) (hp : 0 < p) (n : ℕ) :
    argmaxIdx (List.replicate (n + 1) 0 ++ [p]) = n + 1 := by
  rw [List.replicate_succ, List.cons_append]
  simp only [argmaxIdx]
  rw [argmaxGo_replicate_spike p hp n 1 0]
  omega

theorem scen_peak_index : argmaxIdx (correlate_valid scenVid scenTemplate) = 1000 := by
  rw [correlate_scen]
  exact argmaxIdx_replicate_spike (nearUnit * nearUnit) (by norm_num [nearUnit]) 999

theorem maxAbs_single_nearUnit : maxAbs [nearUnit] = nearUnit := by
  simp [maxAbs]
  norm_num [nearUnit]

theorem maxAbs_pair_negNearUnit : maxAbs [-nearUnit, -nearUnit] = nearUnit := by
  simp [maxAbs]
  norm_num [nearUnit]

/-- Full evaluation of the estimator on the equal-length pair
`([nearUnit], [nearUnit])` at sample rate 1. -/
theorem spike_eval :
    cross_correlation_sync [nearUnit] 1 [nearUnit] 1 60 = some spikeUnitResult := by
  have h3 : normalize [nearUnit] = [nearUnit] :=
    normalize_of_maxAbs_nearUnit _ maxAbs_single_nearUnit
  simp [cross_correlation_sync, h3, pick_template, pick_search, correlate_valid, dot,
    argmaxIdx, argmaxGo, correlatePick, sumSq, spikeUnitResult, List.range_succ]
  norm_num [nearUnit]

/-- Full evaluation of the estimator on `([nearUnit], [-nearUnit, -nearUnit])`
at sample rate 1: all correlation lags are negative. -/
theorem neg_eval :
    cross_correlation_sync [nearUnit] 1 [-nearUnit, -nearUnit] 1 60 = some negPeakResult := by
  have h3 : normalize [nearUnit] = [nearUnit] :=
    normalize_of_maxAbs_nearUnit _ maxAbs_single_nearUnit
  have h4 : normalize [-nearUnit, -nearUnit] = [-nearUnit, -nearUnit] :=
    normalize_of_maxAbs_nearUnit _ maxAbs_pair_negNearUnit
  simp [cross_correlation_sync, h3, h4, pick_template, pick_search, correlate_valid, dot,
    argmaxIdx, argmaxGo, correlatePick, sumSq, negPeakResult, List.range_succ]
  norm_num [nearUnit]

/-! ### Claim theorems -/

/-- C2 (counterexample): with the reference buffer being 1000 zeros followed
by the 500-sample template and the other, shorter buffer being that template
followed by a 999-sample noise tail (`max_offset = 60 s` at 50 Hz covers the
1000-sample gap), the estimator does NOT return
`offset_seconds = 1000/sample_rate`: the noise is part of the template, so
the valid lag range ends below 1000. -/
theorem scenario_a_counterexample :
    (cross_correlation_sync scenVid 50 scenExtNoisy 50 60).map SyncResult.offset_seconds
      ≠ some ((1000 : ℚ) / 50) := by
  have hnl : ¬ scenVid.length < scenExtNoisy.length := by
    rw [scenVid_length, scenExtNoisy_length]; omega
  rw [sync_some_of_not_lt scenVid 50 scenExtNoisy 50 60 scenVid_ne_nil scenExtNoisy_ne_nil hnl]
  have hTlen : (pick_template (normalize scenExtNoisy) 50).length = 1499 := by
    simp only [pick_template, List.length_take, normalize_length, scenExtNoisy_length]
    omega
  have hSlen : (pick_search (normalize scenVid) 1499 (60 * 50)).length = 1500 := by
    simp only [pick_search, List.length_take, normalize_length, scenVid_length]
    omega
  have hclen : (correlate_valid
      (pick_search (normalize scenVid)
        (pick_template (normalize scenExtNoisy) 50).length (60 * 50))
      (pick_template (normalize scenExtNoisy) 50)).length = 2 := by
    simp only [correlate_valid, List.length_map, List.length_range, hTlen, hSlen]
  have hne : correlate_valid
      (pick_search (normalize scenVid)
        (pick_template (normalize scenExtNoisy) 50).length (60 * 50))
      (pick_template (normalize scenExtNoisy) 50) ≠ [] := by
    intro hnil
    rw [hnil] at hclen
    simp at hclen
  have hlt2 : argmaxIdx (correlate_valid
      (pick_search (normalize scenVid)
        (pick_template (normalize scenExtNoisy) 50).length (60 * 50))
      (pick_template (normalize scenExtNoisy) 50)) < 2 := by
    have := argmaxIdx_lt_length _ hne
    rwa [hclen] at this
  intro hcontra
  simp only [Option.map_some', Option.some.injEq] at hcontra
  simp only [correlatePick, if_true] at hcontra
  rw [div_eq_div_iff (by norm_num) (by norm_num)] at hcontra
  push_cast at hcontra
  have hq : ((argmaxIdx (correlate_valid
      (pick_search (normalize scenVid)
        (pick_template (normalize scenExtNoisy) 50).length (60 * 50))
      (pick_template (normalize scenExtNoisy) 50)) : ℚ)) = 1000 := by linarith
  have hpk : argmaxIdx (correlate_valid
      (pick_search (normalize scenVid)
        (pick_template (normalize scenExtNoisy) 50).length (60 * 50))
      (pick_template (normalize scenExtNoisy) 50)) = 1000 := by exact_mod_cast hq
  omega

/-- C2 (amended): when the other buffer is exactly the 500-sample template
(no trailing noise, caps covering), the correlation peak is at lag 1000 and
`offset_seconds = 1000/50 = 20`; and in general, when the template comes
from the reference (shorter video) buffer the offset is
`-peak_index/ext_sr`, otherwise it is `+peak_index/vid_sr`. -/
theorem scenario_a_amended :
    ((cross_correlation_sync scenVid 50 scenExt 50 60).map SyncResult.peak_index = some 1000
  ∧ (cross_correlation_sync scenVid 50 scenExt 50 60).map SyncResult.offset_seconds = some 20)
  ∧ ∀ (v : List ℚ) (vsr : ℕ) (e : List ℚ) (esr mo : ℕ) (r : SyncResult),
      cross_correlation_sync v vsr e esr mo = some r →
      ((v.length < e.length →
          r.template_from_reference = true
        ∧ r.offset_seconds = -((r.peak_index : ℚ) / (esr : ℚ)))
      ∧ (¬ v.length < e.length →
          r.template_from_reference = false
        ∧ r.offset_seconds = (r.peak_index : ℚ) / (vsr : ℚ))) := by
  have hmain : cross_correlation_sync scenVid 50 scenExt 50 60
      = some (correlatePick scenTemplate scenVid true 50 50) := by
    rw [sync_some_of_not_lt scenVid 50 scenExt 50 60 scenVid_ne_nil scenTemplate_ne_nil
      (by rw [scenVid_length, show scenExt.length = 500 from scenTemplate_length]; omega)]
    rw [pick_template_scenExt, scenTemplate_length, pick_search_scenVid]
  refine ⟨⟨?_, ?_⟩, ?_⟩
  · rw [hmain]
    simp [correlatePick, scen_peak_index]
  · rw [hmain]
    simp [correlatePick, scen_peak_index]
    norm_num
  · intro v vsr e esr mo r h
    obtain ⟨hv, he⟩ := sync_sources_ne v vsr e esr mo r h
    constructor
    · intro hlt
      rw [sync_some_of_lt v vsr e esr mo hv he hlt] at h
      rw [← Option.some.inj h]
      constructor <;> simp [correlatePick]
    · intro hnlt
      rw [sync_some_of_not_lt v vsr e esr mo hv he hnlt] at h
      rw [← Option.some.inj h]
      constructor <;> simp [correlatePick]

/-- C2 (witness for the amended theorem): the sign convention applied to the
concrete equal-length pair `([nearUnit], [nearUnit])`. -/
theorem scenario_a_amended_witness :
    spikeUnitResult.template_from_reference = false
  ∧ spikeUnitResult.offset_seconds = (spikeUnitResult.peak_index : ℚ) / ((1 : ℕ) : ℚ) :=
  (scenario_a_amended.2 [nearUnit] 1 [nearUnit] 1 60 spikeUnitResult spike_eval).2
    (by simp)

/-- C6 (counterexample): both buffers `[0]` are non-empty and entirely
silent (zero peak absolute amplitude), yet the estimator does not fail — it
returns a `SyncResult`.  The epsilon added to the peak in normalization
prevents any error on silent input. -/
theorem silent_input_counterexample :
    maxAbs [(0 : ℚ)] = 0
  ∧ ([(0 : ℚ)] ≠ [])
  ∧ (cross_correlation_sync [0] 1 [0] 1 60).isSome = true := by
  refine ⟨by simp [maxAbs], by simp, ?_⟩
  rw [sync_some_of_not_lt [0] 1 [0] 1 60 (by simp) (by simp) (by simp)]
  rfl

/-- C6 (amended): with positive sample rates, the estimator fails if and
only if one of the two input buffers is empty; silent non-empty buffers are
accepted. -/
theorem degenerate_failure_amended (v : List ℚ) (vsr : ℕ) (e : List ℚ) (esr mo : ℕ)
    (_hvsr : 0 < vsr) (_hesr : 0 < esr) :
    cross_correlation_sync v vsr e esr mo = none ↔ (v = [] ∨ e = []) := by
  constructor
  · intro h
    by_contra hc
    obtain ⟨hv, he⟩ := not_or.mp hc
    by_cases hl : v.length < e.length
    · rw [sync_some_of_lt v vsr e esr mo hv he hl] at h
      exact Option.noConfusion h
    · rw [sync_some_of_not_lt v vsr e esr mo hv he hl] at h
      exact Option.noConfusion h
  · intro h
    unfold cross_correlation_sync
    rw [if_pos h]

/-- C6 (witness): the amended equivalence at the concrete pair
`([], [0])`. -/
theorem degenerate_failure_amended_witness :
    cross_correlation_sync [] 1 [(0 : ℚ)] 1 60 = none
      ↔ (([] : List ℚ) = [] ∨ [(0 : ℚ)] = []) :=
  degenerate_failure_amended [] 1 [0] 1 60 Nat.one_pos Nat.one_pos

/-- C9 (confirmed): when the two buffers have exactly equal lengths the
`else` branch runs, so the template comes from the external buffer
(`template_from_reference = false`), and the offset is
`+peak_index/vid_sr`, hence non-negative. -/
theorem equal_length_external_template (v : List ℚ) (vsr : ℕ) (e : List ℚ) (esr mo : ℕ)
    (hv : v ≠ []) (hlen : v.length = e.length) :
    ∃ r, cross_correlation_sync v vsr e esr mo = some r
      ∧ r.template_from_reference = false
      ∧ r.offset_seconds = (r.peak_index : ℚ) / (vsr : ℚ)
      ∧ 0 ≤ r.offset_seconds := by
  have he : e ≠ [] := by
    intro hnil
    rw [hnil] at hlen
    simp only [List.length_nil] at hlen
    exact hv (List.length_eq_zero.mp hlen)
  refine ⟨_, sync_some_of_not_lt v vsr e esr mo hv he (by omega), rfl, ?_, ?_⟩
  · simp [correlatePick]
  · simp [correlatePick]
    positivity

/-- C9 (witness): the equal-length case at the concrete pair
`([nearUnit], [nearUnit])`. -/
theorem equal_length_external_template_witness :
    ∃ r, cross_correlation_sync [nearUnit] 1 [nearUnit] 1 60 = some r
      ∧ r.template_from_reference = false
      ∧ r.offset_seconds = (r.peak_index : ℚ) / ((1 : ℕ) : ℚ)
      ∧ 0 ≤ r.offset_seconds :=
  equal_length_external_template [nearUnit] 1 [nearUnit] 1 60 (by simp) rfl

/-- C10 (confirmed): whichever branch runs, the `sample_rate` field of the
returned `SyncResult` is the video sample rate. -/
theorem sync_sample_rate_video (v : List ℚ) (vsr : ℕ) (e : List ℚ) (esr mo : ℕ)
    (r : SyncResult) (h : cross_correlation_sync v vsr e esr mo = some r) :
    r.sample_rate = vsr := by
  obtain ⟨hv, he⟩ := sync_sources_ne v vsr e esr mo r h
  by_cases hl : v.length < e.length
  · rw [sync_some_of_lt v vsr e esr mo hv he hl] at h
    rw [← Option.some.inj h]
    rfl
  · rw [sync_some_of_not_lt v vsr e esr mo hv he hl] at h
    rw [← Option.some.inj h]
    rfl

/-- C10 (witness): the sample-rate fact at the concrete pair
`([nearUnit], [nearUnit])` with video rate 1. -/
theorem sync_sample_rate_video_witness : spikeUnitResult.sample_rate = 1 :=
  sync_sample_rate_video [nearUnit] 1 [nearUnit] 1 60 spikeUnitResult spike_eval

/-- C1 (counterexample): both buffers are non-empty and non-silent, yet the
confidence of the returned `SyncResult` is negative — `min(·, 1.0)` clamps
only from above, and every correlation lag of this pair is negative. -/
theorem confidence_unit_interval_counterexample :
    maxAbs [nearUnit] ≠ 0
  ∧ maxAbs [-nearUnit, -nearUnit] ≠ 0
  ∧ cross_correlation_sync [nearUnit] 1 [-nearUnit, -nearUnit] 1 60 = some negPeakResult
  ∧ min ((negPeakResult.correlation_peak : ℝ) /
        (Real.sqrt ((negPeakResult.template_energy : ℝ) * (negPeakResult.search_energy : ℝ))
          + 1 / 100000000)) 1 < 0 := by
  refine ⟨?_, ?_, neg_eval, ?_⟩
  · rw [maxAbs_single_nearUnit]
    norm_num [nearUnit]
  · rw [maxAbs_pair_negNearUnit]
    norm_num [nearUnit]
  · have hd : (0 : ℝ) < Real.sqrt
        ((negPeakResult.template_energy : ℝ) * (negPeakResult.search_energy : ℝ))
        + 1 / 100000000 := by
      have h1 := Real.sqrt_nonneg
        ((negPeakResult.template_energy : ℝ) * (negPeakResult.search_energy : ℝ))
      linarith
    have hpk : (negPeakResult.correlation_peak : ℝ) < 0 := by
      norm_num [negPeakResult]
    exact min_lt_iff.mpr (Or.inl (div_neg_of_neg_of_pos hpk hd))

/-- C1 (amended): for every returned `SyncResult`, the confidence is clamped
above at 1 but not below at 0: it is non-negative exactly when the
correlation peak is non-negative (and can be negative otherwise). -/
theorem confidence_clamp_amended (v : List ℚ) (vsr : ℕ) (e : List ℚ) (esr mo : ℕ)
    (r : SyncResult) (c : ℝ)
    (_hr : cross_correlation_sync v vsr e esr mo = some r) (hc : ConfidenceIs r c) :
    c ≤ 1 ∧ (0 ≤ c ↔ 0 ≤ r.correlation_peak) := by
  have hd : (0 : ℝ) < Real.sqrt ((r.template_energy : ℝ) * (r.search_energy : ℝ))
      + 1 / 100000000 := by
    have h1 := Real.sqrt_nonneg ((r.template_energy : ℝ) * (r.search_energy : ℝ))
    linarith
  unfold ConfidenceIs at hc
  subst hc
  refine ⟨min_le_right _ _, ?_, ?_⟩
  · intro h0
    have hq : 0 ≤ (r.correlation_peak : ℝ) /
        (Real.sqrt ((r.template_energy : ℝ) * (r.search_energy : ℝ)) + 1 / 100000000) :=
      le_trans h0 (min_le_left _ _)
    by_contra hneg
    push_neg at hneg
    have hneg2 : (r.correlation_peak : ℝ) < 0 := by exact_mod_cast hneg
    have := div_neg_of_neg_of_pos hneg2 hd
    linarith
  · intro hpk
    have hpk2 : (0 : ℝ) ≤ (r.correlation_peak : ℝ) := by exact_mod_cast hpk
    exact le_min (div_nonneg hpk2 (le_of_lt hd)) (by norm_num)

/-- C1 (witness for the amended theorem): the clamp facts evaluated on the
concrete run over `([nearUnit], [nearUnit])`. -/
theorem confidence_clamp_amended_witness :
    min ((spikeUnitResult.correlation_peak : ℝ) /
        (Real.sqrt ((spikeUnitResult.template_energy : ℝ) * (spikeUnitResult.search_energy : ℝ))
          + 1 / 100000000)) 1 ≤ 1
  ∧ (0 ≤ min ((spikeUnitResult.correlation_peak : ℝ) /
        (Real.sqrt ((spikeUnitResult.template_energy : ℝ) * (spikeUnitResult.search_energy : ℝ))
          + 1 / 100000000)) 1 ↔ 0 ≤ spikeUnitResult.correlation_peak) :=
  confidence_clamp_amended [nearUnit] 1 [nearUnit] 1 60 spikeUnitResult _ spike_eval rfl

/-- C5 (counterexample): at `d = 0.7 s` and sample rate 1 the claim demands
`round(0.7) = 1` zero sample prepended, but the source truncates with
`int()`, prepending none: the buffer comes back unchanged. -/
theorem offset_round_counterexample :
    round ((7 / 10 : ℚ) * ((1 : ℕ) : ℚ)) = 1
  ∧ apply_offset_to_audio [1] 1 (7 / 10) = [1] := by
  constructor
  · norm_num [round_eq]
  · unfold apply_offset_to_audio
    rw [if_pos (by norm_num)]
    norm_num

/-- C5 (amended): `+d` prepends exactly `⌊d·sr⌋` (truncated, not rounded)
zero samples; `-d` drops the first `⌊d·sr⌋` samples (capped at the buffer
length); offset 0 is the identity; and the two length deltas are exact
negatives whenever `⌊d·sr⌋` does not exceed the buffer length. -/
theorem offset_shift_amended (audio : List ℚ) (sr : ℕ) (d : ℚ) (hd : 0 < d) :
    apply_offset_to_audio audio sr d = List.replicate (⌊d * (sr : ℚ)⌋).toNat 0 ++ audio
  ∧ apply_offset_to_audio audio sr (-d) = audio.drop (⌊d * (sr : ℚ)⌋).toNat
  ∧ apply_offset_to_audio audio sr 0 = audio
  ∧ ((⌊d * (sr : ℚ)⌋).toNat ≤ audio.length →
      ((apply_offset_to_audio audio sr d).length : ℤ) - (audio.length : ℤ)
        = (audio.length : ℤ) - ((apply_offset_to_audio audio sr (-d)).length : ℤ)) := by
  have h1 : apply_offset_to_audio audio sr d
      = List.replicate (⌊d * (sr : ℚ)⌋).toNat 0 ++ audio := by
    unfold apply_offset_to_audio
    rw [if_pos hd]
  have h2 : apply_offset_to_audio audio sr (-d) = audio.drop (⌊d * (sr : ℚ)⌋).toNat := by
    unfold apply_offset_to_audio
    rw [if_neg (not_lt.mpr (le_of_lt (neg_lt_zero.mpr hd))), if_pos (neg_lt_zero.mpr hd),
      abs_neg, abs_of_pos hd]
  refine ⟨h1, h2, ?_, ?_⟩
  · unfold apply_offset_to_audio
    rw [if_neg (lt_irrefl 0), if_neg (lt_irrefl 0)]
  · intro hle
    rw [h1, h2]
    simp only [List.length_append, List.length_replicate, List.length_drop]
    omega

/-- C5 (witness for the amended theorem): the shift facts at the concrete
buffer `[1, 2, 3]`, sample rate 2, `d = 5/4` (so `⌊d·sr⌋ = 2`). -/
theorem offset_shift_amended_witness :
    apply_offset_to_audio [1, 2, 3] 2 (5 / 4)
      = List.replicate (⌊(5 / 4 : ℚ) * ((2 : ℕ) : ℚ)⌋).toNat 0 ++ [1, 2, 3]
  ∧ apply_offset_to_audio [1, 2, 3] 2 (-(5 / 4))
      = List.drop (⌊(5 / 4 : ℚ) * ((2 : ℕ) : ℚ)⌋).toNat [1, 2, 3]
  ∧ apply_offset_to_audio [1, 2, 3] 2 0 = [1, 2, 3]
  ∧ ((⌊(5 / 4 : ℚ) * ((2 : ℕ) : ℚ)⌋).toNat ≤ ([1, 2, 3] : List ℚ).length →
      ((apply_offset_to_audio [1, 2, 3] 2 (5 / 4)).length : ℤ)
          - (([1, 2, 3] : List ℚ).length : ℤ)
        = (([1, 2, 3] : List ℚ).length : ℤ)
          - ((apply_offset_to_audio [1, 2, 3] 2 (-(5 / 4))).length : ℤ)) :=
  offset_shift_amended [1, 2, 3] 2 (5 / 4) (by norm_num)

/-- C3 (counterexample): in Replace mode with the default profile
(resolution "original") the planned command of the pro planner contains no
`copy` token at all — the video stream is re-encoded, not copied
verbatim. -/
theorem replace_original_counterexample :
    ({ } : ExportSettings).resolution = "original"
  ∧ "copy" ∉ build_ffmpeg_command "video.mp4" "temp.wav" "out.mp4" { } true :=
  ⟨rfl, by decide⟩

/-- C3 (amended): the pro planner in Replace mode never stream-copies:
with resolution "original" it emits `-c:v <chosen codec>` and no scale
filter; with any other resolution it emits the scale filter and omits
`-c:v` entirely (so neither a stream copy nor the chosen codec); audio is
always re-encoded with the chosen codec and bitrate.  The v2 planner's
fixed Replace command, by contrast, always contains the stream copy
`-c:v copy`. -/
theorem replace_mode_amended (vp ap op : String) (s : ExportSettings) :
    (s.resolution = "original" →
      build_ffmpeg_command vp ap op s true
        = ["ffmpeg", "-i", vp, "-i", ap, "-c:v", s.video_codec,
           "-c:a", s.audio_codec, "-b:v", s.video_bitrate, "-b:a", s.audio_bitrate,
           "-crf", toString s.crf, "-preset", s.preset,
           "-map", "0:v:0", "-map", "1:a:0", "-shortest", "-y", op])
  ∧ (s.resolution ≠ "original" →
      build_ffmpeg_command vp ap op s true
        = ["ffmpeg", "-i", vp, "-i", ap, "-vf", "scale=" ++ s.resolution,
           "-c:a", s.audio_codec, "-b:v", s.video_bitrate, "-b:a", s.audio_bitrate,
           "-crf", toString s.crf, "-preset", s.preset,
           "-map", "0:v:0", "-map", "1:a:0", "-shortest", "-y", op])
  ∧ List.IsInfix ["-c:v", "copy"] (v2_replace_command vp ap op) := by
  refine ⟨?_, ?_, ?_⟩
  · intro h
    simp [build_ffmpeg_command, h]
  · intro h
    simp [build_ffmpeg_command, h, join_comma]
  · exact ⟨["ffmpeg", "-i", vp, "-i", ap],
      ["-c:a", "aac", "-b:a", "192k", "-map", "0:v:0", "-map", "1:a:0", "-shortest", "-y", op],
      rfl⟩

/-- C3 (witness for the amended theorem): the Replace command at the default
profile with concrete paths. -/
theorem replace_mode_amended_witness :
    build_ffmpeg_command "video.mp4" "temp.wav" "out.mp4" { } true
      = ["ffmpeg", "-i", "video.mp4", "-i", "temp.wav",
         "-c:v", ({ } : ExportSettings).video_codec,
         "-c:a", ({ } : ExportSettings).audio_codec,
         "-b:v", ({ } : ExportSettings).video_bitrate,
         "-b:a", ({ } : ExportSettings).audio_bitrate,
         "-crf", toString ({ } : ExportSettings).crf,
         "-preset", ({ } : ExportSettings).preset,
         "-map", "0:v:0", "-map", "1:a:0", "-shortest", "-y", "out.mp4"] :=
  (replace_mode_amended "video.mp4" "temp.wav" "out.mp4" { }).1 rfl

/-- C4 (counterexample): the v2 planner's mix command contains the direct
video stream copy `-c:v copy` alongside the filter graph, so "never contains
a direct video stream copy" fails. -/
theorem mix_stream_copy_counterexample :
    List.IsInfix ["-c:v", "copy"] (v2_mix_command "video.mp4" "temp.wav" "out.mp4") :=
  ⟨["ffmpeg", "-i", "video.mp4", "-i", "temp.wav", "-filter_complex", mix_filter],
   ["-c:a", "aac", "-b:a", "192k", "-map", "0:v:0", "-y", "out.mp4"], rfl⟩

/-- C4 (amended): in mix mode the pro planner always emits the two-branch
filter graph (`volume=0.3` / `volume=1.0`, `amix` with `duration=shortest`)
and re-encodes video with the profile's codec (`-c:v <codec>`); the v2
planner emits the same filter graph but stream-copies the video
(`-c:v copy`). -/
theorem mix_mode_amended (vp ap op : String) (s : ExportSettings) :
    build_ffmpeg_command vp ap op s false
      = ["ffmpeg", "-i", vp, "-i", ap]
        ++ (if s.resolution = "original" then [] else ["-vf", "scale=" ++ s.resolution])
        ++ ["-filter_complex", mix_filter, "-c:v", s.video_codec, "-c:a", s.audio_codec,
            "-b:v", s.video_bitrate, "-b:a", s.audio_bitrate, "-crf", toString s.crf,
            "-preset", s.preset, "-map", "0:v:0", "-y", op]
  ∧ v2_mix_command vp ap op
      = ["ffmpeg", "-i", vp, "-i", ap, "-filter_complex", mix_filter, "-c:v", "copy",
         "-c:a", "aac", "-b:a", "192k", "-map", "0:v:0", "-y", op]
  ∧ List.IsInfix ["-c:v", "copy"] (v2_mix_command vp ap op) := by
  refine ⟨?_, rfl,
    ⟨["ffmpeg", "-i", vp, "-i", ap, "-filter_complex", mix_filter],
     ["-c:a", "aac", "-b:a", "192k", "-map", "0:v:0", "-y", op], rfl⟩⟩
  by_cases h : s.resolution = "original" <;> simp [build_ffmpeg_command, h, join_comma]

/-- C7 (counterexample): with one diagnostic line on the error stream and
exit code 1, the surfaced message is the fixed prefix
`"FFmpeg encoding failed: "` — the progress loop has already consumed the
stream, and the prefix alone differs from the stream text. -/
theorem encode_error_verbatim_counterexample :
    (video_process_run none
        { stderr_lines := ["Error: invalid data found"], exit_code := 1 } "out.mp4").result
      = Except.error "FFmpeg encoding failed: "
  ∧ "FFmpeg encoding failed: " ≠ "Error: invalid data found" := by
  constructor
  · rfl
  · decide

/-- C7 (amended): on non-zero exit the Export flow surfaces an error whose
message is exactly the prefix `"FFmpeg encoding failed: "`: the remainder of
the error stream read after the monitor loop is empty, so no diagnostic text
is appended. -/
theorem encode_error_amended (lines : List String) (code : Int) (op : String) :
    (video_process_run none { stderr_lines := lines, exit_code := code } op).result
      = if code = 0 then Except.ok op
        else Except.error "FFmpeg encoding failed: " := by
  by_cases h : code = 0
  · simp [video_process_run, h]
  · simp only [video_process_run, monitor_drain_eq_nil, if_neg h, if_pos h]
    rfl

/-- C8 (counterexample): when applying the audio offset fails, the Export
flow aborts with an error before reaching the cleanup line — the scratch
audio file is not deleted on this failure path. -/
theorem scratch_cleanup_counterexample :
    (video_process_run (some "No such file or directory")
        { stderr_lines := [], exit_code := 0 } "out.mp4").scratch_deleted = false
  ∧ (video_process_run (some "No such file or directory")
        { stderr_lines := [], exit_code := 0 } "out.mp4").result
      = Except.error "Failed to apply offset: No such file or directory" :=
  ⟨rfl, rfl⟩

/-- C8 (amended): the scratch file is deleted exactly when the
offset-application stage succeeds — the cleanup line runs on the success
path and on the non-zero-exit path, but not when `apply_offset_to_audio`
raises first. -/
theorem scratch_cleanup_amended (off : Option String) (tool : ToolRun) (op : String) :
    (video_process_run off tool op).scratch_deleted = off.isNone := by
  cases off with
  | some msg => rfl
  | none =>
    have hstep : video_process_run none tool op
        = if tool.exit_code ≠ 0 then
            { result := Except.error
                ("FFmpeg encoding failed: " ++ String.join (monitor_drain tool.stderr_lines))
            , scratch_deleted := true }
          else { result := Except.ok op, scratch_deleted := true } := rfl
    rw [hstep]
    by_cases h : tool.exit_code ≠ 0
    · rw [if_pos h]
      rfl
    · rw [if_neg h]
      rfl

end SyncStudio
